import Mathlib

/-!
Shallow embedding of the multi-step account-provisioning pipeline of the
repository (services `accountCreationFull.js`, `accountCreation.js`,
`imapService.js`, `browserAutomation.js`, `goLoginService.js`), together
with theorems settling the frozen claims about it.

Conventions used throughout:
  * every external call that can reject (directory API, proxy fetch,
    browser page operation, IMAP operation, ...) is represented by an
    environment field recording whether that call resolves or rejects;
  * database writes through the progress store (Prisma `creationLog` /
    `account` rows) are modelled as total: the statuses written are
    accumulated in a `writes` list and the persisted account row in a
    `persisted` field;
  * resource acquisitions and release attempts of the browser layer are
    recorded as an explicit event trace.
-/

namespace GW

/-- The status values written to a `CreationLog` row anywhere in the
repository: the seven canonical states of the full pipeline plus `FAILED`
(`accountCreationFull.js`), and the two extra values used by the legacy
service (`accountCreation.js`: `LOGIN_STARTED`, `COMPLETED`). -/
inductive Status
  | PENDING
  | CREATING
  | BROWSER_AUTH
  | ADDING_RECOVERY
  | WAITING_OTP
  | CONFIRMING_OTP
  | SUCCESS
  | FAILED
  | LOGIN_STARTED
  | COMPLETED
deriving DecidableEq, Repr

/-- The canonical forward order of §4.1 of the specification, as realised by
`createSingleAccount` (statuses passed to `updateStep`, in program order). -/
def canonicalOrder : List Status :=
  [Status.PENDING, Status.CREATING, Status.BROWSER_AUTH, Status.ADDING_RECOVERY,
   Status.WAITING_OTP, Status.CONFIRMING_OTP, Status.SUCCESS]

/-- Collapse consecutive duplicate statuses: a repeated `update` with the same
status keeps the log in the same state, so the state history of a log is the
collapsed write sequence. -/
def collapse : List Status → List Status
  | [] => []
  | [a] => [a]
  | a :: b :: rest => if a = b then collapse (b :: rest) else a :: collapse (b :: rest)

/-- All initial segments of the canonical order. -/
def canonicalCuts : List (List Status) :=
  [[],
   [Status.PENDING],
   [Status.PENDING, Status.CREATING],
   [Status.PENDING, Status.CREATING, Status.BROWSER_AUTH],
   [Status.PENDING, Status.CREATING, Status.BROWSER_AUTH, Status.ADDING_RECOVERY],
   [Status.PENDING, Status.CREATING, Status.BROWSER_AUTH, Status.ADDING_RECOVERY,
    Status.WAITING_OTP],
   [Status.PENDING, Status.CREATING, Status.BROWSER_AUTH, Status.ADDING_RECOVERY,
    Status.WAITING_OTP, Status.CONFIRMING_OTP],
   canonicalOrder]

/-- A write sequence satisfies the claimed invariant when its collapsed state
history is an initial segment of the canonical order, or such a segment that
stops short of `SUCCESS` followed by a single terminal `FAILED`.  This implies
that the status never regresses and that nothing follows `SUCCESS`/`FAILED`. -/
def isCanonicalTrace (s : List Status) : Bool :=
  canonicalCuts.any fun p =>
    collapse s == p || (p != canonicalOrder && collapse s == p ++ [Status.FAILED])

end GW

namespace GW.Imap

/-! Embedding of `src/src/services/imapService.js`.  The OTP extraction step
(`getGoogleOtp`, lines 142-156) is `body.match(/\b(\d{6})\b/)`: the scan for
the first position carrying six consecutive ASCII digits delimited by word
boundaries (JavaScript `\w` is `[A-Za-z0-9_]`, `\d` is `[0-9]`). -/

/-- JavaScript word character (`\w` of a non-unicode regex). -/
def isWordChar (c : Char) : Bool := c.isAlphanum || c == '_'

/-- Word boundary on the left of a digit run: start of string or a non-word
character before it. -/
def boundaryLeft : Option Char → Bool
  | none => true
  | some c => !(isWordChar c)

/-- Word boundary on the right of a digit run: end of string or a non-word
character after it. -/
def boundaryRight : List Char → Bool
  | [] => true
  | c :: _ => !(isWordChar c)

/-- Attempt of the pattern `\b\d{6}\b` at the current position, given the
character just before the position (`prev`). -/
def matchSixAt (prev : Option Char) : List Char → Option (List Char)
  | c1 :: c2 :: c3 :: c4 :: c5 :: c6 :: rest =>
    if boundaryLeft prev && [c1, c2, c3, c4, c5, c6].all Char.isDigit &&
        boundaryRight rest then
      some [c1, c2, c3, c4, c5, c6]
    else
      none
  | _ => none

/-- Left-to-right scan of the regex engine: try the pattern at each start
position and return the first match. -/
def scanSix (prev : Option Char) : List Char → Option (List Char)
  | [] => none
  | c :: rest =>
    match matchSixAt prev (c :: rest) with
    | some ds => some ds
    | none => scanSix (some c) rest

/-- OTP extraction from a message body: first match of `\b(\d{6})\b`. -/
def extractOtp (body : String) : Option String :=
  (scanSix none body.toList).map fun ds => String.mk ds

/-- Modelled from the specification words only, for comparison with the code:
the pattern of §4.1 holds at index `i` when the six characters from `i` are
digits and the run is word-delimited on both sides (`prev` stands for the
character before the scanned region). -/
def specSixAt (prev : Option Char) (l : List Char) (i : Nat) : Bool :=
  (match i with
   | 0 => boundaryLeft prev
   | j + 1 => boundaryLeft l[j]?) &&
  ((l.drop i).take 6).length == 6 &&
  ((l.drop i).take 6).all Char.isDigit &&
  boundaryRight (l.drop (i + 6))

/-- Modelled from the specification words only: the first (leftmost)
word-bounded run of exactly six digits, as a reference for `extractOtp`. -/
def specFirstSix (l : List Char) : Option (List Char) :=
  ((List.range l.length).find? (specSixAt none l)).map fun i => (l.drop i).take 6

/-- Connection events of one IMAP service object. -/
inductive ConnEv
  | conn
  | disc
deriving DecidableEq, Repr

/-- Result shape of `getGoogleOtp`/`waitForOtp` (`{success, otp?, error?}`). -/
structure OtpResult where
  success : Bool
  otp : Option String
  error : Option String
deriving DecidableEq, Repr

/-- Environment of one `getGoogleOtp` call: whether `connect` resolves,
whether `openBox`/`search` resolve, the uids found, whether the fetch/parse of
the most recent matching message resolves, and its body text. -/
structure MailEnv where
  connectOk : Bool
  searchOk : Bool
  uids : List Nat
  fetchOk : Bool
  body : String
deriving DecidableEq, Repr

def connectErrMsg : String := "connection error"
def searchErrMsg : String := "search error"
def noEmailMsg : String := "No verification email found"
def fetchErrMsg : String := "fetch error"
def noOtpMsg : String := "Could not extract OTP from email"

/-- Embedding of `ImapService.getGoogleOtp` (lines 110-162): connect, open the
inbox, search, fetch the latest matching message, extract the code; every path,
including the catch-all, disconnects before returning, and no path throws. -/
def getGoogleOtp (env : MailEnv) : OtpResult × List ConnEv :=
  if !env.connectOk then
    ({ success := false, otp := none, error := some connectErrMsg }, [])
  else if !env.searchOk then
    ({ success := false, otp := none, error := some searchErrMsg },
     [ConnEv.conn, ConnEv.disc])
  else if env.uids.isEmpty then
    ({ success := false, otp := none, error := some noEmailMsg },
     [ConnEv.conn, ConnEv.disc])
  else if !env.fetchOk then
    ({ success := false, otp := none, error := some fetchErrMsg },
     [ConnEv.conn, ConnEv.disc])
  else
    match extractOtp env.body with
    | some code =>
      ({ success := true, otp := some code, error := none },
       [ConnEv.conn, ConnEv.disc])
    | none =>
      ({ success := false, otp := none, error := some noOtpMsg },
       [ConnEv.conn, ConnEv.disc])

def timeoutMsg : String := "Timeout waiting for OTP"

/-- Timeout result of the polling loop. -/
def timeoutResult : OtpResult :=
  { success := false, otp := none, error := some timeoutMsg }

/-- Environment of a `waitForOtp` call: the mailbox state seen by the k-th
poll iteration and the wall-clock duration (ms) that iteration takes. -/
structure WaitEnv where
  polls : Nat → MailEnv
  durs : Nat → Nat

/-- Observable outcome of `waitForOtp`: result, number of poll iterations
performed, elapsed time at return, and the connection trace of each
iteration in order. -/
structure WaitOut where
  result : OtpResult
  iterations : Nat
  retTime : Nat
  connTraces : List (List ConnEv)

/-- Embedding of the loop of `ImapService.waitForOtp` (lines 167-181):
`while (Date.now() - startTime < timeoutMs)` poll, return on success, else
sleep `intervalMs` and retry; on falling out of the loop return the timeout
failure.  The loop is driven by a fuel argument; `waitForOtp` supplies enough
fuel whenever the interval is positive (the JavaScript loop advances time by
at least the interval per iteration). -/
def waitForOtpFuel (env : WaitEnv) (timeout interval : Nat) :
    Nat → Nat → Nat → Option WaitOut
  | 0, _, _ => none
  | fuel + 1, k, elapsed =>
    if elapsed < timeout then
      let step := getGoogleOtp (env.polls k)
      if step.1.success then
        some { result := step.1, iterations := k + 1,
               retTime := elapsed + env.durs k, connTraces := [step.2] }
      else
        match waitForOtpFuel env timeout interval fuel (k + 1)
            (elapsed + env.durs k + interval) with
        | some out => some { out with connTraces := step.2 :: out.connTraces }
        | none => none
    else
      some { result := timeoutResult, iterations := k, retTime := elapsed,
             connTraces := [] }

/-- Embedding of `ImapService.waitForOtp` with the fuel instantiated. -/
def waitForOtp (env : WaitEnv) (timeout interval : Nat) : Option WaitOut :=
  waitForOtpFuel env timeout interval (timeout + 1) 0 0

end GW.Imap

namespace GW.GoLogin

/-! Embedding of `GoLoginService.startProfile` (goLoginService.js, the version
with the three-mode fallback chain).  The source text tries SDK mode when the
SDK is available, then Cloud Browser mode, then API mode, collecting per-mode
failure reasons and throwing one aggregated error when all modes have failed.
The cloud mode, however, swallows the failure of its only provider call and
unconditionally returns a constructed WebSocket URL, so everything after the
cloud attempt is dead code. -/

/-- The three operating modes of the session driver, in priority order. -/
inductive GLMode
  | sdk
  | cloud
  | api
deriving DecidableEq, Repr

/-- Environment of one `startProfile` call: whether the SDK package loaded,
the outcome of the SDK start attempt, the outcome of the one provider call of
the cloud mode (the POST to `/browser/id/web` — awaited inside a try/catch
that swallows its rejection), and the outcome of the API-mode start. -/
structure GLEnv where
  sdkAvailable : Bool
  sdkStart : Except String Unit
  cloudApiCallOk : Bool
  apiStart : Except String Unit

/-- Result of a successful `startProfile`: the winning mode, and whether a
live SDK instance (`GL`) is held (only the SDK mode returns one). -/
structure GLStartResult where
  mode : GLMode
  hasGL : Bool
deriving DecidableEq, Repr

def sdkUnavailableReason : String := "SDK: not available"

/-- The aggregated failure message of `startProfile`. -/
def aggregateMsg (errs : List String) : String :=
  "All GoLogin modes failed: " ++ String.intercalate ("; ") errs

/-- Embedding of `startProfileCloud` (lines 264-290): the only awaited call —
the POST to the `/web` endpoint — sits inside a try/catch whose catch merely
logs and continues, after which the function unconditionally builds the
`cloudbrowser.gologin.com` WebSocket URL and returns a cloud-mode result.
Both branches of the match below therefore return the same success value: the
cloud mode never rejects, and it reports success without having verified a
working control connection (a dead URL surfaces only later, at the Puppeteer
connect in `BrowserAutomation`). -/
def startProfileCloud (env : GLEnv) : Except String GLStartResult :=
  match (if env.cloudApiCallOk then Except.ok ()
         else Except.error ("Cloud browser API start failed") :
         Except String Unit) with
  | Except.ok _ => Except.ok { mode := GLMode.cloud, hasGL := false }
  | Except.error _ => Except.ok { mode := GLMode.cloud, hasGL := false }

/-- Embedding of `startProfile` (lines 215-258).  Returns the call outcome
together with the list of modes whose start was actually attempted.  The
source text tries SDK, then Cloud, then API, collecting failure reasons and
throwing an aggregated error when all three fail; the API branch and the
aggregated error are kept here exactly as written, but because
`startProfileCloud` never rejects they are unreachable (proved in the C7
theorem below). -/
def startProfile (env : GLEnv) : Except String GLStartResult × List GLMode :=
  if env.sdkAvailable then
    match env.sdkStart with
    | Except.ok _ => (Except.ok { mode := GLMode.sdk, hasGL := true }, [GLMode.sdk])
    | Except.error e1 =>
      match startProfileCloud env with
      | Except.ok r => (Except.ok r, [GLMode.sdk, GLMode.cloud])
      | Except.error e2 =>
        match env.apiStart with
        | Except.ok _ =>
          (Except.ok { mode := GLMode.api, hasGL := false },
           [GLMode.sdk, GLMode.cloud, GLMode.api])
        | Except.error e3 =>
          (Except.error (aggregateMsg ["SDK: " ++ e1, "Cloud: " ++ e2, "API: " ++ e3]),
           [GLMode.sdk, GLMode.cloud, GLMode.api])
  else
    match startProfileCloud env with
    | Except.ok r => (Except.ok r, [GLMode.cloud])
    | Except.error e2 =>
      match env.apiStart with
      | Except.ok _ =>
        (Except.ok { mode := GLMode.api, hasGL := false }, [GLMode.cloud, GLMode.api])
      | Except.error e3 =>
        (Except.error (aggregateMsg [sdkUnavailableReason, "Cloud: " ++ e2, "API: " ++ e3]),
         [GLMode.cloud, GLMode.api])

end GW.GoLogin

namespace GW.Browser

open GW.GoLogin

/-! Embedding of the resource state machine of `BrowserAutomation`
(browserAutomation.js): `start` tries the GoLogin path and falls back to a
locally launched browser; `cleanup` tears down, best-effort, whatever is held.
Resource acquisitions and release attempts are recorded as events. -/

/-- The resource/teardown events of one pipeline run.  `sessionStart true` is
the start of a remote GoLogin session (`startProfile` succeeded);
`sessionStart false` is the launch of a local fallback browser.
`profileStop live` records a `stopProfile` call, tagged with whether a started
remote session was actually behind the stopped profile; `browserClose local`
records a `browser.close()` call, tagged with whether the closed handle was a
locally launched browser. -/
inductive Ev
  | createUserCall (recovery : Option String)
  | profileCreate
  | sessionStart (remote : Bool)
  | forwarderOpen
  | browserClose (localOwned : Bool)
  | profileStop (sessionLive : Bool)
  | profileDelete
  | forwarderClose
deriving DecidableEq, Repr

/-- The mutable fields of a `BrowserAutomation` object (handles modelled by
presence flags; `browser` carries whether the handle is locally launched;
`remoteLive` tracks a started, not yet stop-attempted remote session). -/
structure BAState where
  goLoginService : Bool := false
  profileId : Bool := false
  goLoginInstance : Bool := false
  goLoginMode : Option GLMode := none
  browser : Option Bool := none
  page : Bool := false
  remoteLive : Bool := false
  anonProxyUrl : Bool := false
deriving DecidableEq, Repr

/-- Environment of one `BrowserAutomation.start` call: the outcome of the
GoLogin profile creation, of `startProfile` (the winning mode, if any), of the
Puppeteer connect (after its internal retries), and of the fallback path
(Chrome present, proxy forwarder creation, local launch). -/
structure StartEnv where
  createProfileOk : Bool
  glStart : Option GLMode
  connectOk : Bool
  chromeFound : Bool
  anonymizeOk : Bool
  launchOk : Bool
deriving DecidableEq, Repr

/-- Embedding of `startWithGoLogin` (lines 90-143): create the profile, start
it through the three-mode chain, connect Puppeteer.  Returns the new state,
the events emitted, and whether the call resolved. -/
def startWithGoLogin (st : BAState) (env : StartEnv) : BAState × List Ev × Bool :=
  let st0 : BAState := { st with goLoginService := true }
  if env.createProfileOk then
    let st1 : BAState := { st0 with profileId := true }
    match env.glStart with
    | some m =>
      let st2 : BAState :=
        { st1 with goLoginInstance := m == GLMode.sdk, goLoginMode := some m,
                   remoteLive := true }
      if env.connectOk then
        ({ st2 with browser := some false, page := true },
         [Ev.profileCreate, Ev.sessionStart true], true)
      else
        (st2, [Ev.profileCreate, Ev.sessionStart true], false)
    | none => (st1, [Ev.profileCreate], false)
  else
    (st0, [], false)

/-- Embedding of `startWithFallback` (lines 150-207): require a local Chrome,
open a local proxy forwarder when the proxy needs authentication, launch. -/
def startWithFallback (st : BAState) (env : StartEnv) (proxyAuth : Bool) :
    BAState × List Ev × Bool :=
  if env.chromeFound then
    if proxyAuth then
      if env.anonymizeOk then
        let st1 : BAState := { st with anonProxyUrl := true }
        if env.launchOk then
          ({ st1 with browser := some true, page := true },
           [Ev.forwarderOpen, Ev.sessionStart false], true)
        else
          (st1, [Ev.forwarderOpen], false)
      else
        (st, [], false)
    else
      if env.launchOk then
        ({ st with browser := some true, page := true }, [Ev.sessionStart false], true)
      else
        (st, [], false)
  else
    (st, [], false)

/-- Embedding of `BrowserAutomation.start` (lines 71-85): try GoLogin when an
API key is configured, fall back to the local Puppeteer path on failure. -/
def start (st : BAState) (env : StartEnv) (hasGoLoginKey proxyAuth : Bool) :
    BAState × List Ev × Bool :=
  if hasGoLoginKey then
    let r1 := startWithGoLogin st env
    if r1.2.2 then
      r1
    else
      let r2 := startWithFallback r1.1 env proxyAuth
      (r2.1, r1.2.1 ++ r2.2.1, r2.2.2)
  else
    startWithFallback st env proxyAuth

/-- Outcomes of the four best-effort sub-steps of `cleanup`; each sub-step
swallows its own error, so these outcomes influence neither the control flow
nor the resulting state. -/
structure CleanupEnv where
  closeOk : Bool
  stopOk : Bool
  deleteOk : Bool
  forwarderCloseOk : Bool
deriving DecidableEq, Repr

/-- Embedding of `BrowserAutomation.cleanup` (lines 1026-1075): close the
browser handle if held, stop and delete the GoLogin profile if the service and
a profile id are held, null the instance/mode/page fields, close the local
proxy forwarder if held.  Every sub-step is wrapped in its own catch, so the
call always resolves (the trailing `true`). -/
def cleanup (st : BAState) (env : CleanupEnv) : BAState × List Ev × Bool :=
  let p1 : List Ev × BAState :=
    match st.browser with
    | some b => ([Ev.browserClose b], { st with browser := none })
    | none => ([], st)
  let p2 : List Ev × BAState :=
    if p1.2.goLoginService && p1.2.profileId then
      ([Ev.profileStop p1.2.remoteLive, Ev.profileDelete],
       { p1.2 with profileId := false, remoteLive := false })
    else
      ([], p1.2)
  let st3 : BAState :=
    { p2.2 with goLoginInstance := false, goLoginMode := none, page := false }
  let p4 : List Ev × BAState :=
    if st3.anonProxyUrl then
      ([Ev.forwarderClose], { st3 with anonProxyUrl := false })
    else
      ([], st3)
  (p4.2, p1.1 ++ p2.1 ++ p4.1, true)

end GW.Browser

namespace GW.Pipeline

open GW.Browser GW.GoLogin

/-! Embedding of `accountCreationFull.js` (`AccountCreationFullService`):
`createSingleAccount` (the full 7-step orchestrator), `createAccountSimple`
(the degraded path without browser automation), the direct sequential batch
loop of `createAccounts`, and the service-level running-flag guard. -/

/-- The workspace fields the orchestrator reads (the recovery mailbox address;
other credential fields are validated before the loop and held fixed). -/
structure Workspace where
  recoveryEmail : Option String
deriving DecidableEq, Repr

/-- The fields of a persisted `account` row that the claims are about. -/
structure AccountRow where
  recovery : Option String
deriving DecidableEq, Repr

/-- Environment of one per-identity attempt: the settings-derived
configuration flags and the outcome of every fallible external call, in
program order.  `otpFound` abstracts the `waitForOtp` result (its `success`
field); `verifyIpOk` is the outcome of the `browser.verifyProxyIp()` call
(that method is absent from the snapshot of `BrowserAutomation`, so in the
unmodified snapshot this call always rejects — the universally quantified
theorems below cover that instance). -/
structure PipeEnv where
  hasWebshareProxy : Bool
  hasLegacyProxy : Bool
  legacyGetProxyOk : Bool
  hasGoLoginKey : Bool
  createUserOk : Bool
  startEnv : StartEnv
  verifyIpOk : Bool
  loginOk : Bool
  addRecoveryOk : Bool
  otpFound : Bool
  enterOtpOk : Bool
  cleanupEnv : CleanupEnv
  cleanupEnvCatch : CleanupEnv
deriving DecidableEq, Repr

/-- Observable outcome of one per-identity run: the statuses written to its
`CreationLog` in order, the event trace, the persisted account row (if any),
whether the run resolved, and the final browser-automation state. -/
structure RunOut where
  writes : List GW.Status
  events : List Ev
  persisted : Option AccountRow
  ok : Bool
  ba : BAState
deriving DecidableEq, Repr

/-- The catch block of `createSingleAccount`: when the `BrowserAutomation`
object exists, run `cleanup` (its own rejection swallowed) and rethrow. -/
def failCleanup (writes : List GW.Status) (events : List Ev) (st : BAState)
    (cenv : CleanupEnv) : RunOut :=
  let c := cleanup st cenv
  { writes := writes, events := events ++ c.2.1, persisted := none,
    ok := false, ba := c.1 }

/-- A failure thrown before the `BrowserAutomation` object exists: no cleanup
runs. -/
def failPlain (writes : List GW.Status) (events : List Ev) : RunOut :=
  { writes := writes, events := events, persisted := none, ok := false, ba := {} }

/-- Embedding of the tail of `createSingleAccount` from step 2 on (after the
proxy step): create the identity through the directory client — always with a
null recovery address —, wait out the anti-correlation delay, start the
browser (guarded on a configured GoLogin key and a held proxy config), verify
the egress IP, warm up (internally caught, never throws) and log in, add the
recovery address, poll for the OTP, confirm it, clean up, persist the account
row, and mark SUCCESS.  `writes0` holds the statuses already written by the
proxy step; each exit point carries the statuses written up to it, in program
order. -/
def afterProxy (w : Workspace) (env : PipeEnv) (writes0 : List GW.Status)
    (proxyConfig : Bool) : RunOut :=
  if env.createUserOk then
    if env.hasGoLoginKey then
      if proxyConfig then
        match GW.Browser.start {} env.startEnv true true with
        | (st1, ev1, started) =>
          if started then
            if env.verifyIpOk then
              if env.loginOk then
                if env.addRecoveryOk then
                  if env.otpFound then
                    if env.enterOtpOk then
                      match cleanup st1 env.cleanupEnv with
                      | (st2, ev2, _) =>
                        { writes := writes0 ++
                            [GW.Status.CREATING, GW.Status.BROWSER_AUTH,
                             GW.Status.BROWSER_AUTH, GW.Status.BROWSER_AUTH,
                             GW.Status.ADDING_RECOVERY, GW.Status.WAITING_OTP,
                             GW.Status.CONFIRMING_OTP, GW.Status.SUCCESS],
                          events := [Ev.createUserCall none] ++ ev1 ++ ev2,
                          persisted := some { recovery := w.recoveryEmail },
                          ok := true, ba := st2 }
                    else
                      failCleanup (writes0 ++
                          [GW.Status.CREATING, GW.Status.BROWSER_AUTH,
                           GW.Status.BROWSER_AUTH, GW.Status.BROWSER_AUTH,
                           GW.Status.ADDING_RECOVERY, GW.Status.WAITING_OTP,
                           GW.Status.CONFIRMING_OTP])
                        ([Ev.createUserCall none] ++ ev1) st1 env.cleanupEnvCatch
                  else
                    failCleanup (writes0 ++
                        [GW.Status.CREATING, GW.Status.BROWSER_AUTH,
                         GW.Status.BROWSER_AUTH, GW.Status.BROWSER_AUTH,
                         GW.Status.ADDING_RECOVERY, GW.Status.WAITING_OTP])
                      ([Ev.createUserCall none] ++ ev1) st1 env.cleanupEnvCatch
                else
                  failCleanup (writes0 ++
                      [GW.Status.CREATING, GW.Status.BROWSER_AUTH,
                       GW.Status.BROWSER_AUTH, GW.Status.BROWSER_AUTH,
                       GW.Status.ADDING_RECOVERY])
                    ([Ev.createUserCall none] ++ ev1) st1 env.cleanupEnvCatch
              else
                failCleanup (writes0 ++
                    [GW.Status.CREATING, GW.Status.BROWSER_AUTH,
                     GW.Status.BROWSER_AUTH, GW.Status.BROWSER_AUTH])
                  ([Ev.createUserCall none] ++ ev1) st1 env.cleanupEnvCatch
            else
              failCleanup (writes0 ++
                  [GW.Status.CREATING, GW.Status.BROWSER_AUTH,
                   GW.Status.BROWSER_AUTH])
                ([Ev.createUserCall none] ++ ev1) st1 env.cleanupEnvCatch
          else
            failCleanup (writes0 ++
                [GW.Status.CREATING, GW.Status.BROWSER_AUTH])
              ([Ev.createUserCall none] ++ ev1) st1 env.cleanupEnvCatch
      else
        failCleanup (writes0 ++ [GW.Status.CREATING, GW.Status.BROWSER_AUTH])
          [Ev.createUserCall none] {} env.cleanupEnvCatch
    else
      failCleanup (writes0 ++ [GW.Status.CREATING, GW.Status.BROWSER_AUTH])
        [Ev.createUserCall none] {} env.cleanupEnvCatch
  else
    failPlain (writes0 ++ [GW.Status.CREATING]) [Ev.createUserCall none]

/-- Embedding of `createSingleAccount` (lines 344-544).  Step 1 resolves the
proxy: the Webshare rotating config when configured (two CREATING writes), the
legacy provider otherwise (fallible fetch; on success only a proxy URL string
is held, no proxy config object), or nothing.  The Webshare rotating proxy
carries credentials, so the fallback browser path runs with an authenticated
proxy (`proxyAuth = true` in `start`). -/
def createSingleAccount (w : Workspace) (env : PipeEnv) : RunOut :=
  if env.hasWebshareProxy then
    afterProxy w env [GW.Status.CREATING, GW.Status.CREATING] true
  else if env.hasLegacyProxy then
    if env.legacyGetProxyOk then
      afterProxy w env [GW.Status.CREATING, GW.Status.CREATING] false
    else
      failPlain [GW.Status.CREATING] []
  else
    afterProxy w env [GW.Status.CREATING] false

/-- Embedding of `createAccountSimple` (lines 285-339): create through the
directory client with a null recovery address, persist the account row —
storing the workspace recovery address in it for the later browser step —
and mark SUCCESS. -/
def createAccountSimple (w : Workspace) (env : PipeEnv) : RunOut :=
  if env.createUserOk then
    { writes := [GW.Status.CREATING, GW.Status.SUCCESS],
      events := [Ev.createUserCall none],
      persisted := some { recovery := w.recoveryEmail }, ok := true, ba := {} }
  else
    failPlain [GW.Status.CREATING] [Ev.createUserCall none]

/-- The `CreationLog` bracket of one loop iteration: the log is created with
status PENDING before the attempt, and marked FAILED after a rejection. -/
def logWrap (r : RunOut) : RunOut :=
  { r with writes := GW.Status.PENDING :: r.writes ++
      (if r.ok then [] else [GW.Status.FAILED]) }

/-- One iteration of the direct batch loop (lines 224-268): create the
`CreationLog` row (PENDING), run the full or the simple path, and on rejection
mark the log FAILED. -/
def runAttempt (w : Workspace) (useBrowserAutomation : Bool) (env : PipeEnv) : RunOut :=
  logWrap
    (if useBrowserAutomation then createSingleAccount w env
     else createAccountSimple w env)

/-- Aggregate outcome of a batch. -/
structure BatchOut where
  created : Nat
  failed : Nat
  logs : List RunOut
deriving Repr

/-- The sequential loop of `createAccounts` with no stop requested: every
attempt runs; a failed attempt increments `failed` and the loop continues. -/
def createAccountsLoop (w : Workspace) (useBrowserAutomation : Bool) :
    List PipeEnv → BatchOut
  | [] => { created := 0, failed := 0, logs := [] }
  | e :: rest =>
    let r := runAttempt w useBrowserAutomation e
    let b := createAccountsLoop w useBrowserAutomation rest
    if r.ok then
      { created := b.created + 1, failed := b.failed, logs := r :: b.logs }
    else
      { created := b.created, failed := b.failed + 1, logs := r :: b.logs }

/-- The controller state of the singleton `AccountCreationFullService`. -/
structure SvcState where
  isRunning : Bool
  shouldStop : Bool
  created : Nat
  failed : Nat
  storeLogs : List RunOut
deriving Repr

def conflictMsg : String := "Account creation already in progress"
def noWorkspaceMsg : String := "Workspace not found"
def noRecoveryMsg : String := "Recovery email not configured for this workspace"
def noCredsMsg : String := "Google API credentials not configured"

/-- Arguments and pre-validated configuration of one `createAccounts` call. -/
structure StartArgs where
  workspace : Option Workspace
  recoveryConfigured : Bool
  credsConfigured : Bool
  useBrowserAutomation : Bool
  envs : List PipeEnv

/-- Embedding of `createAccounts` (lines 155-280, direct-processing regime):
reject with a conflict error while a batch is running — before any state is
touched —, validate the workspace, run the sequential loop, and publish the
aggregate counts. -/
def createAccounts (s : SvcState) (a : StartArgs) : SvcState × Except String BatchOut :=
  if s.isRunning then
    (s, Except.error conflictMsg)
  else
    match a.workspace with
    | none =>
      ({ s with isRunning := false, shouldStop := false, created := 0, failed := 0 },
       Except.error noWorkspaceMsg)
    | some w =>
      if !a.recoveryConfigured then
        ({ s with isRunning := false, shouldStop := false, created := 0, failed := 0 },
         Except.error noRecoveryMsg)
      else if !a.credsConfigured then
        ({ s with isRunning := false, shouldStop := false, created := 0, failed := 0 },
         Except.error noCredsMsg)
      else
        let b := createAccountsLoop w a.useBrowserAutomation a.envs
        ({ s with isRunning := false, shouldStop := false,
                  created := b.created, failed := b.failed,
                  storeLogs := s.storeLogs ++ b.logs },
         Except.ok b)

end GW.Pipeline

namespace GW.Legacy

open GW.Pipeline GW.Browser

/-! Embedding of one iteration of the legacy `AccountCreationService`
(`accountCreation.js`, lines 78-157): statuses PENDING, LOGIN_STARTED and
COMPLETED/FAILED, and a directory-client call that receives the workspace
recovery address directly. -/

/-- One per-identity attempt of the legacy service. -/
def runAttempt (w : Workspace) (createUserOk : Bool) : RunOut :=
  let events := [Ev.createUserCall w.recoveryEmail]
  if createUserOk then
    { writes := [GW.Status.PENDING, GW.Status.LOGIN_STARTED, GW.Status.COMPLETED],
      events := events, persisted := some { recovery := w.recoveryEmail },
      ok := true, ba := {} }
  else
    { writes := [GW.Status.PENDING, GW.Status.LOGIN_STARTED, GW.Status.FAILED],
      events := events, persisted := none, ok := false, ba := {} }

end GW.Legacy

namespace GW

open GW.Pipeline GW.Browser GW.GoLogin

/-- A concrete workspace used by counterexamples and witnesses. -/
def wEx : Pipeline.Workspace := { recoveryEmail := some ("rec@example.com") }

/-- A concrete all-resolving attempt environment. -/
def envAllOk : PipeEnv :=
  { hasWebshareProxy := true, hasLegacyProxy := false, legacyGetProxyOk := true,
    hasGoLoginKey := true, createUserOk := true,
    startEnv := { createProfileOk := true, glStart := some GLMode.sdk,
                  connectOk := true, chromeFound := true, anonymizeOk := true,
                  launchOk := true },
    verifyIpOk := true, loginOk := true, addRecoveryOk := true, otpFound := true,
    enterOtpOk := true, cleanupEnv := ⟨true, true, true, true⟩,
    cleanupEnvCatch := ⟨true, true, true, true⟩ }

/-- C1, counterexample: the claim quantifies over every per-identity pipeline
run, but a successful degraded-path run (browser automation disabled) writes
the status sequence PENDING, CREATING, SUCCESS — not an initial segment of the
canonical order — and a successful run of the legacy service writes PENDING,
LOGIN_STARTED, COMPLETED, status values outside the canonical order
altogether. -/
theorem claim_C1_counterexample :
    isCanonicalTrace ((Pipeline.runAttempt wEx false envAllOk).writes) = false ∧
    (Pipeline.runAttempt wEx false envAllOk).writes =
      [Status.PENDING, Status.CREATING, Status.SUCCESS] ∧
    isCanonicalTrace ((Legacy.runAttempt wEx true).writes) = false ∧
    (Legacy.runAttempt wEx true).writes =
      [Status.PENDING, Status.LOGIN_STARTED, Status.COMPLETED] := by
  decide

/-- C1, amended: every run of the full 7-step pipeline writes a status
sequence whose collapsed state history is an initial segment of the canonical
order, possibly terminated by a single FAILED (so the status never regresses
and nothing follows SUCCESS or FAILED); the degraded path instead writes
exactly PENDING, CREATING, SUCCESS on success and PENDING, CREATING, FAILED on
failure. -/
theorem claim_C1_amended (w : Pipeline.Workspace) (env : PipeEnv) :
    isCanonicalTrace ((Pipeline.runAttempt w true env).writes) = true ∧
    ((Pipeline.runAttempt w false env).writes =
        [Status.PENDING, Status.CREATING, Status.SUCCESS] ∨
      (Pipeline.runAttempt w false env).writes =
        [Status.PENDING, Status.CREATING, Status.FAILED]) := by
  have hap : ∀ writes0 pc (r : RunOut), (writes0 = [Status.CREATING] ∨
        writes0 = [Status.CREATING, Status.CREATING]) →
      Pipeline.afterProxy w env writes0 pc = r →
      isCanonicalTrace (Status.PENDING :: r.writes ++
        (if r.ok then [] else [Status.FAILED])) = true := by
    intro writes0 pc r h0 hr
    unfold Pipeline.afterProxy at hr
    repeat' split at hr
    all_goals rw [← hr]
    all_goals rcases h0 with h0 | h0
    all_goals rw [h0]
    all_goals rfl
  have h : ∀ r : RunOut, Pipeline.createSingleAccount w env = r →
      isCanonicalTrace (Status.PENDING :: r.writes ++
        (if r.ok then [] else [Status.FAILED])) = true := by
    intro r hr
    unfold Pipeline.createSingleAccount at hr
    repeat' split at hr
    · exact hap _ _ r (Or.inr rfl) hr
    · exact hap _ _ r (Or.inr rfl) hr
    · rw [← hr]
      rfl
    · exact hap _ _ r (Or.inl rfl) hr
  have hs : ∀ r : RunOut, Pipeline.createAccountSimple w env = r →
      (Status.PENDING :: r.writes ++ (if r.ok then [] else [Status.FAILED]) =
          [Status.PENDING, Status.CREATING, Status.SUCCESS] ∨
        Status.PENDING :: r.writes ++ (if r.ok then [] else [Status.FAILED]) =
          [Status.PENDING, Status.CREATING, Status.FAILED]) := by
    intro r hr
    unfold Pipeline.createAccountSimple at hr
    split at hr
    · rw [← hr]
      exact Or.inl rfl
    · rw [← hr]
      exact Or.inr rfl
  exact ⟨h (Pipeline.createSingleAccount w env) rfl,
    hs (Pipeline.createAccountSimple w env) rfl⟩

/-- C2: within the full service (`accountCreationFull.js`), an account row is
persisted exactly on the runs whose `CreationLog` receives the SUCCESS status:
every run that persists marks SUCCESS, and no rejected run (its log marked
FAILED by the loop) persists a row.  This holds for the full 7-step path and
for the degraded path alike. -/
theorem claim_C2_persist_iff_success (w : Pipeline.Workspace) (env : PipeEnv)
    (useBrowserAutomation : Bool) :
    ((Pipeline.runAttempt w useBrowserAutomation env).persisted.isSome = true) ↔
      Status.SUCCESS ∈ (Pipeline.runAttempt w useBrowserAutomation env).writes := by
  have hap : ∀ writes0 pc (r : RunOut), (writes0 = [Status.CREATING] ∨
        writes0 = [Status.CREATING, Status.CREATING]) →
      Pipeline.afterProxy w env writes0 pc = r →
      ((Pipeline.logWrap r).persisted.isSome = true ↔
        Status.SUCCESS ∈ (Pipeline.logWrap r).writes) := by
    intro writes0 pc r h0 hr
    unfold Pipeline.afterProxy at hr
    repeat' split at hr
    all_goals rw [← hr]
    all_goals rcases h0 with h0 | h0
    all_goals rw [h0]
    all_goals simp [Pipeline.logWrap, Pipeline.failCleanup, Pipeline.failPlain]
  have h : ∀ r : RunOut, Pipeline.createSingleAccount w env = r →
      ((Pipeline.logWrap r).persisted.isSome = true ↔
        Status.SUCCESS ∈ (Pipeline.logWrap r).writes) := by
    intro r hr
    unfold Pipeline.createSingleAccount at hr
    repeat' split at hr
    · exact hap _ _ r (Or.inr rfl) hr
    · exact hap _ _ r (Or.inr rfl) hr
    · rw [← hr]
      simp [Pipeline.logWrap, Pipeline.failPlain]
    · exact hap _ _ r (Or.inl rfl) hr
  have hs : ∀ r : RunOut, Pipeline.createAccountSimple w env = r →
      ((Pipeline.logWrap r).persisted.isSome = true ↔
        Status.SUCCESS ∈ (Pipeline.logWrap r).writes) := by
    intro r hr
    unfold Pipeline.createAccountSimple at hr
    split at hr
    all_goals rw [← hr]
    all_goals simp [Pipeline.logWrap, Pipeline.failPlain]
  rcases useBrowserAutomation
  · exact hs (Pipeline.createAccountSimple w env) rfl
  · exact h (Pipeline.createSingleAccount w env) rfl

/-- Predicate for C9: every directory-client `createUser` invocation recorded
in the trace carries a null recovery address. -/
def recoveryNullAtApi (t : List Ev) : Bool :=
  t.all fun e =>
    match e with
    | Ev.createUserCall r => r.isNone
    | _ => true

/-- C9, counterexample: the claim quantifies over every identity creation, but
a run of the legacy service (`accountCreation.js` lines 97-115) passes the
workspace recovery address directly to `createUser`, and the degraded path of
the full service stores the workspace recovery address into the persisted
account row at creation time (`createAccountSimple`, line 315). -/
theorem claim_C9_counterexample :
    recoveryNullAtApi ((Legacy.runAttempt wEx true).events) = false ∧
    Ev.createUserCall (some ("rec@example.com")) ∈ (Legacy.runAttempt wEx true).events ∧
    (Pipeline.runAttempt wEx false envAllOk).persisted =
      some { recovery := some ("rec@example.com") } := by
  refine ⟨by decide, by decide, ?_⟩
  rfl

/-- Helper: the browser start path never records a `createUser` call. -/
theorem start_events_null_api (st : BAState) (se : StartEnv) (k1 k2 : Bool) :
    recoveryNullAtApi (GW.Browser.start st se k1 k2).2.1 = true := by
  unfold GW.Browser.start GW.Browser.startWithGoLogin GW.Browser.startWithFallback
  repeat' split
  all_goals rfl

/-- Helper: browser cleanup never records a `createUser` call. -/
theorem cleanup_events_null_api (st : BAState) (ce : CleanupEnv) :
    recoveryNullAtApi (GW.Browser.cleanup st ce).2.1 = true := by
  rcases st with ⟨gs, pid, gi, gm, br, pg, rl, ap⟩
  rcases gs <;> rcases pid <;> rcases rl <;> rcases ap <;>
    rcases br with _ | b <;> first
    | rfl
    | (rcases b <;> rfl)

/-- C9, amended: in the full service (`accountCreationFull.js`) — both the
7-step path and the degraded path — `createUser` is always invoked with a null
recovery address: the recovery address reaches Google only through the later
browser step.  (The degraded path does store the workspace recovery address in
the local account row for that later browser addition, and the legacy service
passes the recovery address to `createUser` directly — see the
counterexample.) -/
theorem claim_C9_amended (w : Pipeline.Workspace) (env : PipeEnv)
    (useBrowserAutomation : Bool) :
    recoveryNullAtApi ((Pipeline.runAttempt w useBrowserAutomation env).events) = true := by
  have hcl : ∀ st ce, recoveryNullAtApi (GW.Browser.cleanup st ce).2.1 = true :=
    cleanup_events_null_api
  have hap : ∀ writes0 pc,
      recoveryNullAtApi ((Pipeline.afterProxy w env writes0 pc).events) = true := by
    intro writes0 pc
    unfold Pipeline.afterProxy
    rcases hs : GW.Browser.start {} env.startEnv true true with ⟨st1, ev1, started⟩
    have hev1 : recoveryNullAtApi ev1 = true := by
      have h := start_events_null_api {} env.startEnv true true
      rw [hs] at h
      exact h
    simp only [hs]
    simp only [recoveryNullAtApi, List.all_append] at hev1 hcl ⊢
    repeat' split
    all_goals simp [Pipeline.failCleanup, Pipeline.failPlain, hev1, hcl]
  have hfull : ∀ r : RunOut, Pipeline.createSingleAccount w env = r →
      recoveryNullAtApi ((Pipeline.logWrap r).events) = true := by
    intro r hr
    unfold Pipeline.createSingleAccount at hr
    repeat' split at hr
    · rw [← hr]
      exact hap _ _
    · rw [← hr]
      exact hap _ _
    · rw [← hr]
      rfl
    · rw [← hr]
      exact hap _ _
  rcases useBrowserAutomation
  · show recoveryNullAtApi
      ((Pipeline.logWrap (Pipeline.createAccountSimple w env)).events) = true
    unfold Pipeline.createAccountSimple
    split
    all_goals rfl
  · exact hfull (Pipeline.createSingleAccount w env) rfl

/-- Event classifier: start of a remote GoLogin session. -/
def isRemoteStart : Ev → Bool
  | Ev.sessionStart true => true
  | _ => false

/-- Event classifier: launch of a local fallback browser. -/
def isLocalStart : Ev → Bool
  | Ev.sessionStart false => true
  | _ => false

/-- Event classifier: a `stopProfile` call directed at a started remote
session. -/
def isRemoteStopAttempt : Ev → Bool
  | Ev.profileStop true => true
  | _ => false

/-- Event classifier: a `browser.close()` call on a locally launched
browser. -/
def isLocalStopAttempt : Ev → Bool
  | Ev.browserClose true => true
  | _ => false

/-- Event classifier: any `stopProfile` call. -/
def isProfileStopCall : Ev → Bool
  | Ev.profileStop _ => true
  | _ => false

/-- Event classifier: any `deleteProfile` call. -/
def isProfileDeleteCall : Ev → Bool
  | Ev.profileDelete => true
  | _ => false

/-- Number of browser sessions started in a trace. -/
def sessionStarts (t : List Ev) : Nat :=
  t.countP isRemoteStart + t.countP isLocalStart

/-- Number of browser-session stop attempts in a trace: `stopProfile` calls
directed at a started remote session, plus closes of a locally launched
browser. -/
def sessionStopAttempts (t : List Ev) : Nat :=
  t.countP isRemoteStopAttempt + t.countP isLocalStopAttempt

/-- Helper: event counts of `BrowserAutomation.start` from a fresh state: a
remote start is recorded exactly when the final state holds a live remote
session, a local start exactly when it holds a locally launched browser; no
stop attempts are recorded, and a live remote session implies a held service
and profile id. -/
theorem start_event_counts (se : StartEnv) (st1 : BAState) (ev1 : List Ev)
    (started : Bool) (hs : GW.Browser.start {} se true true = (st1, ev1, started)) :
    ev1.countP isRemoteStart = (if st1.remoteLive then 1 else 0) ∧
    ev1.countP isLocalStart = (if st1.browser = some true then 1 else 0) ∧
    ev1.countP isRemoteStopAttempt = 0 ∧
    ev1.countP isLocalStopAttempt = 0 ∧
    ev1.countP isProfileStopCall = 0 ∧
    ev1.countP isProfileDeleteCall = 0 ∧
    (st1.remoteLive = true → st1.goLoginService = true ∧ st1.profileId = true) := by
  unfold GW.Browser.start GW.Browser.startWithGoLogin GW.Browser.startWithFallback at hs
  repeat' split at hs
  all_goals injection hs with h1 hrest
  all_goals injection hrest with h2 h3
  all_goals subst h1
  all_goals subst h2
  all_goals refine ⟨rfl, rfl, rfl, rfl, rfl, rfl, fun hrl => ?_⟩
  all_goals first
  | exact ⟨rfl, rfl⟩
  | cases hrl

/-- Helper: stop-attempt counts of `cleanup`: a remote-directed `stopProfile`
is recorded exactly when the incoming state holds service, profile id and a
live remote session; a local browser close exactly when it holds a locally
launched browser; no session starts are recorded; `stopProfile` and
`deleteProfile` calls are always paired. -/
theorem cleanup_event_counts (st : BAState) (ce : CleanupEnv) :
    (GW.Browser.cleanup st ce).2.1.countP isRemoteStopAttempt =
      (if st.goLoginService && st.profileId && st.remoteLive then 1 else 0) ∧
    (GW.Browser.cleanup st ce).2.1.countP isLocalStopAttempt =
      (if st.browser = some true then 1 else 0) ∧
    (GW.Browser.cleanup st ce).2.1.countP isRemoteStart = 0 ∧
    (GW.Browser.cleanup st ce).2.1.countP isLocalStart = 0 ∧
    (GW.Browser.cleanup st ce).2.1.countP isProfileStopCall =
      (GW.Browser.cleanup st ce).2.1.countP isProfileDeleteCall := by
  rcases st with ⟨gs, pid, gi, gm, br, pg, rl, ap⟩
  rcases gs <;> rcases pid <;> rcases rl <;> rcases ap <;>
    rcases br with _ | b <;> first
    | exact ⟨rfl, rfl, rfl, rfl, rfl⟩
    | (rcases b <;> exact ⟨rfl, rfl, rfl, rfl, rfl⟩)

/-- C3: in every run of the full per-identity pipeline, the number of
browser-session starts recorded equals the number of browser-session stop
attempts recorded — per kind (remote GoLogin session matched by a
`stopProfile` on its live session, locally launched browser matched by its
`browser.close()`), and in total — and every `stopProfile` attempt is paired
with a `deleteProfile` attempt.  This holds on the success path and on every
rejection path, because the orchestrator runs `cleanup` before returning
whenever the browser object exists. -/
theorem claim_C3_resource_balance (w : Pipeline.Workspace) (env : PipeEnv) :
    sessionStarts ((Pipeline.runAttempt w true env).events) =
      sessionStopAttempts ((Pipeline.runAttempt w true env).events) ∧
    ((Pipeline.runAttempt w true env).events).countP isRemoteStart =
      ((Pipeline.runAttempt w true env).events).countP isRemoteStopAttempt ∧
    ((Pipeline.runAttempt w true env).events).countP isLocalStart =
      ((Pipeline.runAttempt w true env).events).countP isLocalStopAttempt ∧
    ((Pipeline.runAttempt w true env).events).countP isProfileStopCall =
      ((Pipeline.runAttempt w true env).events).countP isProfileDeleteCall := by
  have hap : ∀ writes0 pc,
      ((Pipeline.afterProxy w env writes0 pc).events).countP isRemoteStart =
        ((Pipeline.afterProxy w env writes0 pc).events).countP isRemoteStopAttempt ∧
      ((Pipeline.afterProxy w env writes0 pc).events).countP isLocalStart =
        ((Pipeline.afterProxy w env writes0 pc).events).countP isLocalStopAttempt ∧
      ((Pipeline.afterProxy w env writes0 pc).events).countP isProfileStopCall =
        ((Pipeline.afterProxy w env writes0 pc).events).countP isProfileDeleteCall := by
    intro writes0 pc
    unfold Pipeline.afterProxy
    rcases hs : GW.Browser.start {} env.startEnv true true with ⟨st1, ev1, started⟩
    obtain ⟨ha, hb, hc, hd, he, hf, hg⟩ :=
      start_event_counts env.startEnv st1 ev1 started hs
    have hlink : ∀ ce : CleanupEnv,
        (GW.Browser.cleanup st1 ce).2.1.countP isRemoteStopAttempt =
          (if st1.remoteLive then 1 else 0) := by
      intro ce
      rw [(cleanup_event_counts st1 ce).1]
      rcases hrl : st1.remoteLive
      · simp
      · rcases hg hrl with ⟨hgs, hpid⟩
        simp [hgs, hpid]
    simp only [hs]
    repeat' split
    all_goals simp [Pipeline.failCleanup, Pipeline.failPlain,
      List.countP_append, List.countP_cons, List.countP_nil,
      isRemoteStart, isLocalStart, isRemoteStopAttempt, isLocalStopAttempt,
      isProfileStopCall, isProfileDeleteCall,
      ha, hb, hc, hd, he, hf, hlink,
      (cleanup_event_counts st1 env.cleanupEnv).2.1,
      (cleanup_event_counts st1 env.cleanupEnvCatch).2.1,
      (cleanup_event_counts st1 env.cleanupEnv).2.2.1,
      (cleanup_event_counts st1 env.cleanupEnvCatch).2.2.1,
      (cleanup_event_counts st1 env.cleanupEnv).2.2.2.1,
      (cleanup_event_counts st1 env.cleanupEnvCatch).2.2.2.1,
      (cleanup_event_counts st1 env.cleanupEnv).2.2.2.2,
      (cleanup_event_counts st1 env.cleanupEnvCatch).2.2.2.2,
      (cleanup_event_counts {} env.cleanupEnvCatch).1,
      (cleanup_event_counts {} env.cleanupEnvCatch).2.1,
      (cleanup_event_counts {} env.cleanupEnvCatch).2.2.1,
      (cleanup_event_counts {} env.cleanupEnvCatch).2.2.2.1,
      (cleanup_event_counts {} env.cleanupEnvCatch).2.2.2.2]
  have hfull : ∀ r : RunOut, Pipeline.createSingleAccount w env = r →
      (Pipeline.logWrap r).events.countP isRemoteStart =
        (Pipeline.logWrap r).events.countP isRemoteStopAttempt ∧
      (Pipeline.logWrap r).events.countP isLocalStart =
        (Pipeline.logWrap r).events.countP isLocalStopAttempt ∧
      (Pipeline.logWrap r).events.countP isProfileStopCall =
        (Pipeline.logWrap r).events.countP isProfileDeleteCall := by
    intro r hr
    unfold Pipeline.createSingleAccount at hr
    repeat' split at hr
    · rw [← hr]
      exact hap _ _
    · rw [← hr]
      exact hap _ _
    · rw [← hr]
      exact ⟨rfl, rfl, rfl⟩
    · rw [← hr]
      exact hap _ _
  have h := hfull (Pipeline.createSingleAccount w env) rfl
  have hre : (Pipeline.runAttempt w true env).events =
      (Pipeline.logWrap (Pipeline.createSingleAccount w env)).events := rfl
  refine ⟨?_, by rw [hre]; exact h.1, by rw [hre]; exact h.2.1,
    by rw [hre]; exact h.2.2⟩
  unfold sessionStarts sessionStopAttempts
  rw [hre, h.1, h.2.1]

/-- Helper: a run is marked FAILED in its log exactly when it did not resolve
(rejected runs get FAILED appended by the loop; resolving runs end their
writes with SUCCESS). -/
theorem runAttempt_failedMark (w : Pipeline.Workspace) (u : Bool) (env : PipeEnv) :
    ((Pipeline.runAttempt w u env).writes.getLast? == some Status.FAILED) =
      !(Pipeline.runAttempt w u env).ok := by
  have hap : ∀ writes0 pc (r : RunOut), (writes0 = [Status.CREATING] ∨
        writes0 = [Status.CREATING, Status.CREATING]) →
      Pipeline.afterProxy w env writes0 pc = r →
      (((Pipeline.logWrap r).writes.getLast? == some Status.FAILED) =
        !(Pipeline.logWrap r).ok) := by
    intro writes0 pc r h0 hr
    unfold Pipeline.afterProxy at hr
    repeat' split at hr
    all_goals rw [← hr]
    all_goals rcases h0 with h0 | h0
    all_goals rw [h0]
    all_goals rfl
  have h : ∀ r : RunOut, Pipeline.createSingleAccount w env = r →
      (((Pipeline.logWrap r).writes.getLast? == some Status.FAILED) =
        !(Pipeline.logWrap r).ok) := by
    intro r hr
    unfold Pipeline.createSingleAccount at hr
    repeat' split at hr
    · exact hap _ _ r (Or.inr rfl) hr
    · exact hap _ _ r (Or.inr rfl) hr
    · rw [← hr]
      rfl
    · exact hap _ _ r (Or.inl rfl) hr
  rcases u
  · show ((Pipeline.logWrap (Pipeline.createAccountSimple w env)).writes.getLast? ==
        some Status.FAILED) = !(Pipeline.logWrap (Pipeline.createAccountSimple w env)).ok
    unfold Pipeline.createAccountSimple
    split
    all_goals rfl
  · exact h (Pipeline.createSingleAccount w env) rfl

/-- C4: the sequential batch loop with no stop requested runs one attempt per
requested identity — a failure never aborts the loop —, creates exactly one
log per attempt, reports `created = n - k` and `failed = k` where `k` is the
number of failing attempts, and exactly the `k` failing attempts have their
log marked FAILED. -/
theorem claim_C4_batch_counts (w : Pipeline.Workspace) (u : Bool)
    (envs : List PipeEnv) :
    (Pipeline.createAccountsLoop w u envs).logs.length = envs.length ∧
    (Pipeline.createAccountsLoop w u envs).created +
      (Pipeline.createAccountsLoop w u envs).failed = envs.length ∧
    (Pipeline.createAccountsLoop w u envs).failed =
      envs.countP (fun e => !(Pipeline.runAttempt w u e).ok) ∧
    (Pipeline.createAccountsLoop w u envs).created =
      envs.length - envs.countP (fun e => !(Pipeline.runAttempt w u e).ok) ∧
    (Pipeline.createAccountsLoop w u envs).logs.countP
        (fun r => r.writes.getLast? == some Status.FAILED) =
      envs.countP (fun e => !(Pipeline.runAttempt w u e).ok) := by
  induction envs with
  | nil => exact ⟨rfl, rfl, rfl, rfl, rfl⟩
  | cons e rest ih =>
    obtain ⟨ih1, ih2, ih3, ih4, ih5⟩ := ih
    simp only [Pipeline.createAccountsLoop, List.countP_cons, List.length_cons]
    rcases hok : (Pipeline.runAttempt w u e).ok
    all_goals have hm := runAttempt_failedMark w u e
    all_goals rw [hok] at hm
    all_goals refine ⟨?_, ?_, ?_, ?_, ?_⟩ <;>
      simp [hok, hm, ih1, ih2, ih3, ih4, ih5] <;> omega

/-- C8: while a batch is running, a second `createAccounts` call throws the
conflict error before touching any state: the returned state is exactly the
incoming one — running flag, counters and stored logs untouched. -/
theorem claim_C8_conflict (s : Pipeline.SvcState) (a : Pipeline.StartArgs)
    (h : s.isRunning = true) :
    Pipeline.createAccounts s a = (s, Except.error Pipeline.conflictMsg) := by
  unfold Pipeline.createAccounts
  rw [h]
  simp

/-- A concrete in-flight controller state and start request. -/
def svcEx : Pipeline.SvcState :=
  { isRunning := true, shouldStop := false, created := 3, failed := 1,
    storeLogs := [Pipeline.runAttempt wEx true envAllOk] }

def argsEx : Pipeline.StartArgs :=
  { workspace := some wEx, recoveryConfigured := true, credsConfigured := true,
    useBrowserAutomation := true, envs := [envAllOk] }

/-- C8, witness: the conflict guard at a concrete in-flight state. -/
theorem claim_C8_conflict_witness :
    svcEx.isRunning = true ∧
    Pipeline.createAccounts svcEx argsEx =
      (svcEx, Except.error Pipeline.conflictMsg) :=
  ⟨rfl, claim_C8_conflict svcEx argsEx rfl⟩

/-- C7, counterexample: an environment in which the SDK fails and every
external provider call rejects.  The cloud mode still returns a cloud-session
result — its only awaited call is caught and the WebSocket URL is built
unconditionally — so `startProfile` succeeds in cloud mode without any
working control connection, never attempts the API mode, and never produces
the aggregated all-modes-failed error the claim requires. -/
theorem claim_C7_counterexample :
    GoLogin.startProfileCloud
        { sdkAvailable := true, sdkStart := Except.error ("sdk down"),
          cloudApiCallOk := false, apiStart := Except.error ("api down") } =
      Except.ok { mode := GoLogin.GLMode.cloud, hasGL := false } ∧
    GoLogin.startProfile
        { sdkAvailable := true, sdkStart := Except.error ("sdk down"),
          cloudApiCallOk := false, apiStart := Except.error ("api down") } =
      (Except.ok { mode := GoLogin.GLMode.cloud, hasGL := false },
       [GoLogin.GLMode.sdk, GoLogin.GLMode.cloud]) :=
  ⟨rfl, rfl⟩

/-- C7, amended: `startProfile` tries the SDK mode first when the SDK is
available and its success determines the result with no later mode attempted;
otherwise the cloud mode is attempted next and always wins — it never rejects,
whether or not its provider call succeeded, and without verifying a working
control connection — so the call never rejects, the local control-plane API
mode is never attempted, and the aggregated all-modes-failed error, though
present in the source text, is unreachable. -/
theorem claim_C7_amended (env : GoLogin.GLEnv) :
    (env.sdkAvailable = true → ∀ u, env.sdkStart = Except.ok u →
      GoLogin.startProfile env =
        (Except.ok { mode := GoLogin.GLMode.sdk, hasGL := true },
         [GoLogin.GLMode.sdk])) ∧
    (∀ e1, env.sdkAvailable = true → env.sdkStart = Except.error e1 →
      GoLogin.startProfile env =
        (Except.ok { mode := GoLogin.GLMode.cloud, hasGL := false },
         [GoLogin.GLMode.sdk, GoLogin.GLMode.cloud])) ∧
    (env.sdkAvailable = false →
      GoLogin.startProfile env =
        (Except.ok { mode := GoLogin.GLMode.cloud, hasGL := false },
         [GoLogin.GLMode.cloud])) ∧
    (∀ e, (GoLogin.startProfile env).1 ≠ Except.error e) ∧
    GoLogin.GLMode.api ∉ (GoLogin.startProfile env).2 := by
  have hcloud : GoLogin.startProfileCloud env =
      Except.ok { mode := GoLogin.GLMode.cloud, hasGL := false } := by
    unfold GoLogin.startProfileCloud
    split
    all_goals rfl
  refine ⟨?_, ?_, ?_, ?_, ?_⟩
  · intro hsdk u hok
    unfold GoLogin.startProfile
    rw [hsdk, hok]
    rfl
  · intro e1 hsdk herr
    unfold GoLogin.startProfile
    rw [hsdk, herr, hcloud]
    rfl
  · intro hsdk
    unfold GoLogin.startProfile
    rw [hcloud]
    simp [hsdk]
  · intro e
    unfold GoLogin.startProfile
    rw [hcloud]
    rcases hsdk : env.sdkAvailable
    · simp [hsdk]
    · rcases hst : env.sdkStart with u | e1
      all_goals simp [hsdk, hst]
  · unfold GoLogin.startProfile
    rw [hcloud]
    rcases hsdk : env.sdkAvailable
    · simp [hsdk]
    · rcases hst : env.sdkStart with u | e1
      all_goals simp [hsdk, hst]

/-- A concrete environment with the SDK unavailable and every external
provider call failing. -/
def glEnvCloudOnly : GoLogin.GLEnv :=
  { sdkAvailable := false, sdkStart := Except.error ("sdk not loaded"),
    cloudApiCallOk := false, apiStart := Except.error ("api down") }

/-- C7, witness: with the SDK unavailable and the cloud provider call
rejecting, the call still resolves in cloud mode after attempting only the
cloud mode. -/
theorem claim_C7_amended_witness :
    GoLogin.startProfile glEnvCloudOnly =
      (Except.ok { mode := GoLogin.GLMode.cloud, hasGL := false },
       [GoLogin.GLMode.cloud]) :=
  (claim_C7_amended glEnvCloudOnly).2.2.1 rfl

/-- C10: `cleanup` always resolves whatever the sub-step outcomes are; after
one call the browser, page, profile id, GoLogin instance, GoLogin mode and
local forwarder fields are all cleared (given the reachable-state fact that a
held profile id comes with a held service object); and a second call performs
no close/stop/delete action — it emits no events — and resolves. -/
theorem claim_C10_cleanup_idempotent (st : Browser.BAState)
    (ce1 ce2 : Browser.CleanupEnv)
    (hreach : st.profileId = true → st.goLoginService = true) :
    (GW.Browser.cleanup st ce1).2.2 = true ∧
    (GW.Browser.cleanup st ce1).1.browser = none ∧
    (GW.Browser.cleanup st ce1).1.page = false ∧
    (GW.Browser.cleanup st ce1).1.profileId = false ∧
    (GW.Browser.cleanup st ce1).1.goLoginInstance = false ∧
    (GW.Browser.cleanup st ce1).1.goLoginMode = none ∧
    (GW.Browser.cleanup st ce1).1.anonProxyUrl = false ∧
    GW.Browser.cleanup (GW.Browser.cleanup st ce1).1 ce2 =
      ((GW.Browser.cleanup st ce1).1, [], true) := by
  rcases st with ⟨gs, pid, gi, gm, br, pg, rl, ap⟩
  rcases gs <;> rcases pid <;> rcases rl <;> rcases ap <;>
    rcases br with _ | b
  all_goals first
  | exact Bool.noConfusion (hreach rfl)
  | exact ⟨rfl, rfl, rfl, rfl, rfl, rfl, rfl, rfl⟩

/-- A concrete fully-loaded browser state. -/
def baLive : Browser.BAState :=
  { goLoginService := true, profileId := true, goLoginInstance := true,
    goLoginMode := some GoLogin.GLMode.sdk, browser := some false, page := true,
    remoteLive := true, anonProxyUrl := true }

/-- C10, witness: cleanup of a fully-loaded state resolves, clears every
field, and a second cleanup does nothing. -/
theorem claim_C10_cleanup_idempotent_witness :
    (GW.Browser.cleanup baLive ⟨false, false, false, false⟩).2.2 = true ∧
    GW.Browser.cleanup (GW.Browser.cleanup baLive ⟨false, false, false, false⟩).1
        ⟨true, true, true, true⟩ =
      ((GW.Browser.cleanup baLive ⟨false, false, false, false⟩).1, [], true) :=
  ⟨(claim_C10_cleanup_idempotent baLive ⟨false, false, false, false⟩
      ⟨true, true, true, true⟩ (fun _ => rfl)).1,
   (claim_C10_cleanup_idempotent baLive ⟨false, false, false, false⟩
      ⟨true, true, true, true⟩ (fun _ => rfl)).2.2.2.2.2.2.2⟩

namespace Imap

/-- Helper: taking six from a list with at least six elements. -/
theorem take_six_cons (a b c d e f : Char) (tl : List Char) :
    (a :: b :: c :: d :: e :: f :: tl).take 6 = [a, b, c, d, e, f] := rfl

/-- Helper: dropping six from a list with at least six elements. -/
theorem drop_six_cons (a b c d e f : Char) (tl : List Char) :
    (a :: b :: c :: d :: e :: f :: tl).drop 6 = tl := rfl

/-- Helper: the single-position matcher agrees with the specification pattern
at position 0. -/
theorem matchSixAt_eq (prev : Option Char) (l : List Char) :
    matchSixAt prev l = if specSixAt prev l 0 then some (l.take 6) else none := by
  rcases l with _ | ⟨c1, _ | ⟨c2, _ | ⟨c3, _ | ⟨c4, _ | ⟨c5, _ | ⟨c6, rest⟩⟩⟩⟩⟩⟩
  all_goals
    simp [matchSixAt, specSixAt, List.length_take, take_six_cons, drop_six_cons,
      Bool.and_assoc]

/-- Helper: shifting the specification pattern one position to the right. -/
theorem specSixAt_succ (prev : Option Char) (c : Char) (rest : List Char)
    (i : Nat) :
    specSixAt prev (c :: rest) (i + 1) = specSixAt (some c) rest i := by
  have h6 : i + 1 + 6 = (i + 6) + 1 := by omega
  rcases i with _ | j
  · simp [specSixAt, List.drop_succ_cons, h6]
  · simp [specSixAt, List.drop_succ_cons, h6]

/-- Helper: the left-to-right scan returns the pattern match at the least
position, exactly as the specification describes. -/
theorem scanSix_eq (l : List Char) : ∀ prev,
    scanSix prev l =
      ((List.range l.length).find? (specSixAt prev l)).map
        fun i => (l.drop i).take 6 := by
  induction l with
  | nil => intro prev; rfl
  | cons c rest ih =>
    intro prev
    rw [scanSix, matchSixAt_eq]
    rcases h0 : specSixAt prev (c :: rest) 0
    · rw [if_neg (by simp [h0])]
      show scanSix (some c) rest = _
      rw [ih (some c)]
      simp only [List.length_cons, List.range_succ_eq_map]
      rw [List.find?_cons_of_neg _ (by simp [h0]), List.find?_map,
        Option.map_map]
      have hp : (specSixAt prev (c :: rest)) ∘ Nat.succ =
          specSixAt (some c) rest :=
        funext fun j => specSixAt_succ prev c rest j
      rw [hp]
      rfl
    · rw [if_pos (by simp [h0])]
      simp only [List.length_cons, List.range_succ_eq_map]
      rw [List.find?_cons_of_pos _ (by simp [h0])]
      simp

end Imap

/-- A concrete mailbox environment whose latest matching message body holds no
six-digit run. -/
def mailNoCode : Imap.MailEnv :=
  { connectOk := true, searchOk := true, uids := [3], fetchOk := true,
    body := "Hello, your code is not here: 12345 and 1234567." }

/-- C5: OTP extraction is the first word-bounded run of exactly six digits —
`extractOtp` coincides with the specification-side first-match function — it
is a pure function of the body (two fetches of the same body yield the same
code), and a body without such a run produces the explicit not-found result of
`getGoogleOtp`, never an exception. -/
theorem claim_C5_otp_extraction (body : String) (e1 e2 : Imap.MailEnv) :
    Imap.extractOtp body =
      (Imap.specFirstSix body.toList).map (fun ds => String.mk ds) ∧
    (e1.body = e2.body → e1.connectOk = true → e2.connectOk = true →
      e1.searchOk = true → e2.searchOk = true →
      e1.uids.isEmpty = false → e2.uids.isEmpty = false →
      e1.fetchOk = true → e2.fetchOk = true →
      (Imap.getGoogleOtp e1).1.otp = (Imap.getGoogleOtp e2).1.otp) ∧
    (Imap.specFirstSix e1.body.toList = none → e1.connectOk = true →
      e1.searchOk = true → e1.uids.isEmpty = false → e1.fetchOk = true →
      (Imap.getGoogleOtp e1).1 =
        { success := false, otp := none, error := some Imap.noOtpMsg }) := by
  have hx : ∀ b : String, Imap.extractOtp b =
      (Imap.specFirstSix b.toList).map (fun ds => String.mk ds) := by
    intro b
    unfold Imap.extractOtp Imap.specFirstSix
    rw [Imap.scanSix_eq, Option.map_map]
  refine ⟨hx body, ?_, ?_⟩
  · intro hb h1 h2 h3 h4 h5 h6 h7 h8
    unfold Imap.getGoogleOtp
    simp only [h1, h2, h3, h4, h5, h6, h7, h8, hb, Bool.not_true,
      Bool.false_eq_true, if_false]
  · intro hnone h1 h3 h5 h7
    have hext : Imap.extractOtp e1.body = none := by
      rw [hx e1.body, hnone]
      rfl
    unfold Imap.getGoogleOtp
    simp only [h1, h3, h5, h7, hext, Bool.not_true, Bool.false_eq_true, if_false]

/-- C5, witness: on a concrete body with no word-bounded six-digit run, the
result is the explicit not-found failure. -/
theorem claim_C5_otp_extraction_witness :
    (Imap.getGoogleOtp mailNoCode).1 =
      { success := false, otp := none, error := some Imap.noOtpMsg } :=
  (claim_C5_otp_extraction mailNoCode.body mailNoCode mailNoCode).2.2
    (by decide) rfl rfl (by decide) rfl

namespace Imap

/-- Helper: one `getGoogleOtp` call either opens no connection (connect
rejected) or opens exactly one and closes it before returning. -/
theorem getGoogleOtp_conn_balanced (me : MailEnv) :
    (getGoogleOtp me).2 = [] ∨ (getGoogleOtp me).2 = [ConnEv.conn, ConnEv.disc] := by
  unfold getGoogleOtp
  repeat' split
  all_goals first
  | exact Or.inl rfl
  | exact Or.inr rfl

/-- Helper: when every poll fails, the fuelled loop returns the timeout
failure, never before the timeout has elapsed, one connection trace per
performed iteration, with the last iteration having started before the
timeout. -/
theorem waitFuel_timeout (env : WaitEnv) (timeout interval : Nat)
    (hfail : ∀ k, (getGoogleOtp (env.polls k)).1.success = false) :
    ∀ fuel k elapsed, 1 ≤ fuel → timeout ≤ elapsed + (fuel - 1) * interval →
      k * interval ≤ elapsed → (k = 0 ∨ (k - 1) * interval < timeout) →
      ∃ out, waitForOtpFuel env timeout interval fuel k elapsed = some out ∧
        out.result = timeoutResult ∧
        timeout ≤ out.retTime ∧
        out.iterations = k + out.connTraces.length ∧
        (out.iterations = 0 ∨ (out.iterations - 1) * interval < timeout) ∧
        ∀ tr ∈ out.connTraces, tr = [] ∨ tr = [ConnEv.conn, ConnEv.disc] := by
  intro fuel
  induction fuel with
  | zero => intro k elapsed h1 _ _ _; omega
  | succ f ih =>
    intro k elapsed _ h2 hk hlast
    by_cases he : elapsed < timeout
    · have hf1 : 1 ≤ f := by
        rcases Nat.eq_zero_or_pos f with hf0 | hf0
        · subst hf0
          simp at h2
          omega
        · omega
      obtain ⟨f2, rfl⟩ : ∃ f2, f = f2 + 1 := ⟨f - 1, by omega⟩
      have hsm : (f2 + 1) * interval = f2 * interval + interval := by ring
      have h2a : f2 + 1 + 1 - 1 = f2 + 1 := by omega
      rw [h2a] at h2
      have h2b : timeout ≤ elapsed + env.durs k + interval +
          (f2 + 1 - 1) * interval := by
        have h2c : f2 + 1 - 1 = f2 := by omega
        rw [h2c]
        omega
      have hk2 : (k + 1) * interval ≤ elapsed + env.durs k + interval := by
        have hkm : (k + 1) * interval = k * interval + interval := by ring
        omega
      have hlast2 : k + 1 = 0 ∨ (k + 1 - 1) * interval < timeout := by
        right
        have h2c : k + 1 - 1 = k := by omega
        rw [h2c]
        omega
      obtain ⟨out, hout, hres, hret, hiter, hbound, htr⟩ :=
        ih (k + 1) (elapsed + env.durs k + interval) hf1 h2b hk2 hlast2
      refine ⟨{ out with
          connTraces := (getGoogleOtp (env.polls k)).2 :: out.connTraces },
        ?_, hres, hret, ?_, ?_, ?_⟩
      · rw [waitForOtpFuel, if_pos he]
        show (if (getGoogleOtp (env.polls k)).1.success = true then _ else _) = _
        rw [hfail k, if_neg Bool.false_ne_true, hout]
      · simp only [List.length_cons]
        omega
      · exact hbound
      · intro tr htr2
        rcases List.mem_cons.mp htr2 with htr3 | htr3
        · rw [htr3]
          exact getGoogleOtp_conn_balanced (env.polls k)
        · exact htr tr htr3
    · refine ⟨⟨timeoutResult, k, elapsed, []⟩, ?_, rfl,
        by show timeout ≤ elapsed; omega, by simp, ?_, by simp⟩
      · simp only [waitForOtpFuel, if_neg he]
      · exact hlast

end Imap

/-- C6: with a positive poll interval, if every poll fails to find a code,
`waitForOtp` terminates, performs at most `⌈timeoutMs / intervalMs⌉` poll
iterations (one connection trace per iteration, each opening at most one
connection and closing it within the iteration), and then returns the failure
result carrying the timeout error — never before the timeout has elapsed. -/
theorem claim_C6_wait_bounded (env : Imap.WaitEnv) (timeout interval : Nat)
    (hi : 0 < interval)
    (hfail : ∀ k, (Imap.getGoogleOtp (env.polls k)).1.success = false) :
    ∃ out, Imap.waitForOtp env timeout interval = some out ∧
      out.result = Imap.timeoutResult ∧
      timeout ≤ out.retTime ∧
      out.iterations ≤ (timeout + interval - 1) / interval ∧
      out.connTraces.length = out.iterations ∧
      ∀ tr ∈ out.connTraces, tr = [] ∨ tr = [Imap.ConnEv.conn, Imap.ConnEv.disc] := by
  have hfuel : timeout ≤ 0 + (timeout + 1 - 1) * interval := by
    have h1 : timeout + 1 - 1 = timeout := by omega
    rw [h1]
    have h2 : timeout * 1 ≤ timeout * interval := Nat.mul_le_mul_left timeout hi
    omega
  obtain ⟨out, h, hres, hret, hiter, hbound, htr⟩ :=
    Imap.waitFuel_timeout env timeout interval hfail (timeout + 1) 0 0
      (by omega) hfuel (by simp) (Or.inl rfl)
  refine ⟨out, h, hres, hret, ?_, by omega, htr⟩
  rcases hbound with h0 | hlt
  · simp [h0]
  · rcases hm : out.iterations with _ | m
    · simp
    · rw [hm] at hlt
      have hlt2 : m * interval < timeout := by
        have h1 : m + 1 - 1 = m := by omega
        rw [h1] at hlt
        exact hlt
      have hmul : (m + 1) * interval ≤ timeout + interval - 1 := by
        have hmm : (m + 1) * interval = m * interval + interval := by ring
        omega
      exact (Nat.le_div_iff_mul_le hi).mpr hmul

/-- A mailbox environment that never finds a matching message, with
instantaneous polls. -/
def waitEnvEx : Imap.WaitEnv :=
  { polls := fun _ =>
      { connectOk := true, searchOk := true, uids := [], fetchOk := true,
        body := "" },
    durs := fun _ => 0 }

/-- C6, witness: a 10-second timeout with a 2-second interval performs at most
five polls and returns the timeout failure at or after the timeout. -/
theorem claim_C6_wait_bounded_witness :
    ∃ out, Imap.waitForOtp waitEnvEx 10000 2000 = some out ∧
      out.result = Imap.timeoutResult ∧
      10000 ≤ out.retTime ∧
      out.iterations ≤ 5 := by
  obtain ⟨out, h, hres, hret, hiter, _, _⟩ :=
    claim_C6_wait_bounded waitEnvEx 10000 2000 (by decide) (fun k => rfl)
  have hceil : (10000 + 2000 - 1) / 2000 = 5 := by norm_num
  rw [hceil] at hiter
  exact ⟨out, h, hres, hret, hiter⟩

end GW
